import Mathlib

/-!
Shallow embedding of the multi-agent file-processor repository
(src/lib.rs, src/mcp_protocol.rs, src/bin/1_file_explorer.rs,
src/bin/3_summarizer.rs, src/bin/4_interactive_client.rs,
src/bin/5_llm_gateway.rs, src/bin/6_agent_launcher.rs).

Pure message-handling steps become Lean functions on the step's inputs.
Deserialization of a wire payload is an external effect (serde_json), so a
handler step takes the parse outcome as an `Option` of the parsed type;
downstream effects (filesystem scan, HTTP call) enter as `Except String`
results.  A `?`-propagated error in a Rust `main` is modelled as
`Except.error` of the whole step.  Bus publications performed by a step are
collected as a list of (subject, payload) pairs.
-/

namespace MultiAgent

/-- Wire envelope from src/lib.rs: `pub enum AgentResponse<T> { Success(T), Error(String) }`. -/
inductive AgentResponse (T : Type) where
  | Success (value : T)
  | Error (msg : String)
deriving DecidableEq, Repr

/-- Record from src/lib.rs: `pub struct FileDiscovered { pub name: String, pub path: String }`. -/
structure FileDiscovered where
  name : String
  path : String
deriving DecidableEq, Repr

/-- Record from src/lib.rs: `pub struct FileListRequest;` (unit struct, no fields). -/
structure FileListRequest where
deriving DecidableEq, Repr

/-- Record from src/lib.rs: `pub struct ProcessFileRequest { pub path: String }`. -/
structure ProcessFileRequest where
  path : String
deriving DecidableEq, Repr

/-- Record from src/mcp_protocol.rs: `pub struct McpMessageTurn { pub role: String, pub content: String }`. -/
structure McpMessageTurn where
  role : String
  content : String
deriving DecidableEq, Repr

/-- Record from src/mcp_protocol.rs: `McpRequest { model, provider, messages, temperature }`.
The `f32` temperature is carried opaquely as a rational number: no handler in
the embedded code computes with it, it is only stored and forwarded. -/
structure McpRequest where
  model : String
  provider : Option String
  messages : List McpMessageTurn
  temperature : Option ℚ
deriving DecidableEq, Repr

/-- Record from src/mcp_protocol.rs: `McpResponse { content, token_usage }`. -/
structure McpResponse where
  content : String
  token_usage : Option (ℕ × ℕ)
deriving DecidableEq, Repr

/-- One bus publication: destination subject and the enveloped payload. -/
structure Publication (T : Type) where
  subject : String
  payload : AgentResponse T
deriving DecidableEq, Repr

/-! ### File explorer (src/bin/1_file_explorer.rs)

The `files.list.request` branch of the explorer's select loop:

    let _req: FileListRequest = serde_json::from_slice(&msg.payload)?;
    let response = match scan_directory(&dir_to_scan) {
        Ok(files) => AgentResponse::Success(FileListResponse { files }),
        Err(e) => AgentResponse::Error(format!("Error del explorador al escanear: {}", e)),
    };
    if let Some(reply) = msg.reply { client.publish(reply, ...).await?; }

The `?` on deserialization aborts `main` (the whole handler loop) when the
payload is malformed.  `parse` is the outcome of `serde_json::from_slice`,
`scan` the outcome of `scan_directory`, `reply` the message's reply subject. -/
def explorerListStep (parse : Option FileListRequest)
    (scan : Except String (List FileDiscovered)) (reply : Option String) :
    Except String (List (Publication (List FileDiscovered))) :=
  match parse with
  | none => Except.error "invalid type: JSON parse error in files.list.request payload"
  | some _ =>
    let response : AgentResponse (List FileDiscovered) :=
      match scan with
      | Except.ok files => AgentResponse.Success files
      | Except.error e => AgentResponse.Error ("Error del explorador al escanear: " ++ e)
    match reply with
    | some r => Except.ok [⟨r, response⟩]
    | none => Except.ok []

/-- Branch `file.request.content` of the explorer's select loop, same shape:
parse `ProcessFileRequest` with `?`, read the file, answer Success(content)
or Error("No se pudo leer ..."), publish only when a reply subject exists. -/
def explorerContentStep (parse : Option ProcessFileRequest)
    (readFile : Except String String) (reply : Option String) :
    Except String (List (Publication String)) :=
  match parse with
  | none => Except.error "invalid type: JSON parse error in file.request.content payload"
  | some req =>
    let response : AgentResponse String :=
      match readFile with
      | Except.ok content => AgentResponse.Success content
      | Except.error e =>
        AgentResponse.Error ("No se pudo leer '" ++ req.path ++ "': " ++ e)
    match reply with
    | some r => Except.ok [⟨r, response⟩]
    | none => Except.ok []

/-! ### LLM gateway (src/bin/5_llm_gateway.rs) -/

/-- The `mcp.request.completion` branch of the gateway's select loop:

    let req: McpRequest = match serde_json::from_slice(&msg.payload) {
        Ok(r) => r,
        Err(e) => { error!(...); continue; }            // no reply at all
    };
    ...
    let resp = match handle_mcp(req, &http, &state_snapshot).await {
        Ok(m) => AgentResponse::Success(m),
        Err(e) => AgentResponse::Error(e.to_string()),
    };
    if let Some(r) = rply { ... publish(r, payload) ... }

A malformed payload is logged and dropped (`continue`): the step publishes
nothing and the loop carries on.  `handle` is the outcome of `handle_mcp`. -/
def gatewayCompletionStep (parse : Option McpRequest)
    (handle : Except String McpResponse) (reply : Option String) :
    List (Publication McpResponse) :=
  match parse with
  | none => []
  | some _ =>
    let resp : AgentResponse McpResponse :=
      match handle with
      | Except.ok m => AgentResponse.Success m
      | Except.error e => AgentResponse.Error e
    match reply with
    | some r => [⟨r, resp⟩]
    | none => []

/-- Gateway mutable configuration from src/bin/5_llm_gateway.rs:
`LlmConfigState { provider, model, base_url, api_key, temperature }`.
The `f32` temperature is opaque (stored, never computed with). -/
structure LlmConfigState where
  provider : Option String
  model : Option String
  base_url : Option String
  api_key : Option String
  temperature : Option ℚ
deriving DecidableEq, Repr

/-- Wire message for the `llm.config.set` topic:
`LlmConfigSet { provider, model, base_url, api_key, temperature }`,
every field optional. -/
structure LlmConfigSet where
  provider : Option String
  model : Option String
  base_url : Option String
  api_key : Option String
  temperature : Option ℚ
deriving DecidableEq, Repr

/-- The `llm.config.set` branch of the gateway's select loop:

    match serde_json::from_slice::<LlmConfigSet>(&msg.payload) {
        Ok(cfg) => {
            state.provider = cfg.provider.or(state.provider);
            state.model = cfg.model.or(state.model);
            state.base_url = cfg.base_url.or(state.base_url);
            state.api_key = cfg.api_key.or(state.api_key);
            state.temperature = cfg.temperature.or(state.temperature);
        }
        Err(e) => error!(...),                           // state untouched
    }

`parse = none` is the `Err` arm: the message failed to deserialize. -/
def gatewayConfigStep (state : LlmConfigState) (parse : Option LlmConfigSet) :
    LlmConfigState :=
  match parse with
  | none => state
  | some cfg =>
    { provider := cfg.provider.or state.provider
      model := cfg.model.or state.model
      base_url := cfg.base_url.or state.base_url
      api_key := cfg.api_key.or state.api_key
      temperature := cfg.temperature.or state.temperature }

/-- Topics the gateway subscribes to, in order of the `client.subscribe` calls
in src/bin/5_llm_gateway.rs `main`. -/
def gatewaySubscribedTopics : List String :=
  ["mcp.request.completion", "llm.ping", "llm.config.set",
   "llm.models.list", "llm.providers.inspect"]

/-- Topics on which the interactive GUI client (src/bin/4_interactive_client.rs)
publishes its gateway control requests: `ping_gateway` sends on "mcp.ping",
`list_models` on "mcp.provider.list", `inspect_providers` on
"mcp.provider.inspect" (the `c.request(...)` subjects). -/
def guiControlTopics : List String :=
  ["mcp.ping", "mcp.provider.list", "mcp.provider.inspect"]

/-! ### Summarizer (src/bin/3_summarizer.rs) -/

/-- Possible outcome of the summarizer's manual request/reply wait in
`process_file`: the reply subscription either delivers a message (whose
payload may or may not deserialize as `AgentResponse<McpResponse>`), or the
stream closes with no message, or the 120 s deadline fires first. -/
inductive ReplyOutcome where
  | delivered (parsed : Option (AgentResponse McpResponse))
  | streamClosed
  | deadlineExpired
deriving DecidableEq, Repr

/-- Tail of `process_file` in src/bin/3_summarizer.rs:

    let maybe_msg = tokio::time::timeout(Duration::from_secs(120), replies.next())
        .await
        .map_err(|_| anyhow!("Timeout esperando respuesta del LLM Gateway (120s)."))?;
    let msg = maybe_msg
        .ok_or_else(|| anyhow!("El LLM Gateway cerró la respuesta sin emitir mensaje"))?;
    let mcp_response: AgentResponse<McpResponse> =
        serde_json::from_slice(&msg.payload).context("Respuesta del Gateway malformada")?;
    match mcp_response {
        AgentResponse::Success(resp) => Ok(resp.content),
        AgentResponse::Error(e) => bail!("El LLM Gateway devolvió un error: {}", e),
    }
-/
def summarizerAwaitReply (o : ReplyOutcome) : Except String String :=
  match o with
  | ReplyOutcome.deadlineExpired =>
    Except.error "Timeout esperando respuesta del LLM Gateway (120s)."
  | ReplyOutcome.streamClosed =>
    Except.error "El LLM Gateway cerró la respuesta sin emitir mensaje"
  | ReplyOutcome.delivered none =>
    Except.error "Respuesta del Gateway malformada"
  | ReplyOutcome.delivered (some (AgentResponse.Success resp)) =>
    Except.ok resp.content
  | ReplyOutcome.delivered (some (AgentResponse.Error e)) =>
    Except.error ("El LLM Gateway devolvió un error: " ++ e)

/-- The summarizer's own reply envelope, built in `main` around
`process_file`'s outcome:

    let response = match process_file(...).await {
        Ok(summary) => AgentResponse::Success(summary),
        Err(e) => AgentResponse::Error(e.to_string()),
    };
-/
def summarizerEnvelope (processResult : Except String String) : AgentResponse String :=
  match processResult with
  | Except.ok summary => AgentResponse.Success summary
  | Except.error e => AgentResponse.Error e

/-! ### Agent launcher / process supervisor (src/bin/6_agent_launcher.rs)

The supervisor is modelled as a small-step interpreter of its control loop.
Spawning an OS process is an external effect, so the model is parametric over
an environment `env : Nat → SpawnOutcome` giving the outcome of the n-th
`spawn_agent` call of the run (a pid on success, failure otherwise); the
model threads the call counter.  The lifecycle event channel delivers
`(id, AgentConfig)` pairs produced by each spawned process's monitor task;
`ctrl_c` is the operator shutdown signal.  The loop's trace of events is a
list; an empty remaining trace means the loop is still blocked waiting. -/

/-- Enum from src/bin/6_agent_launcher.rs: `RestartPolicy { Never, OnFailure, Always }`. -/
inductive RestartPolicy where
  | Never
  | OnFailure
  | Always
deriving DecidableEq, Repr

/-- Record from src/bin/6_agent_launcher.rs:
`AgentConfig { name, bin, enabled, restart }`. -/
structure AgentConfig where
  name : String
  bin : String
  enabled : Bool
  restart : RestartPolicy
deriving DecidableEq, Repr

/-- Runtime record from src/bin/6_agent_launcher.rs:
`ManagedAgent { config, child, id }`; the child handle itself is not data,
its identity is the stored pid. -/
structure ManagedAgent where
  config : AgentConfig
  id : ℕ
deriving DecidableEq, Repr

/-- Outcome of one `spawn_agent` call: `Ok(ManagedAgent)` carrying the child's
pid, or the `Err` that `command.spawn()` produced. -/
inductive SpawnOutcome where
  | ok (pid : ℕ)
  | fail
deriving DecidableEq, Repr

/-- Error message of a failed `spawn_agent`, from the `.context(format!(...))`
on `command.spawn()` (the path part is summarized by the binary name). -/
def spawnFailMsg (cfg : AgentConfig) : String :=
  "Fallo al iniciar el binario '" ++ cfg.bin ++ "'"

/-- One event multiplexed by the control loop's `tokio::select!`: the operator
shutdown signal, or a lifecycle event `(id, config)` received on the mpsc
channel from an exited process's monitor task. -/
inductive LoopEvent where
  | ctrlC
  | exited (id : ℕ) (cfg : AgentConfig)
deriving DecidableEq, Repr

/-- Exit status of an agent process, as the OS reports it to `wait()`.
The monitor task in `spawn_agent` discards it: `let _ = ch.wait().await;`. -/
inductive ExitStatus where
  | success
  | failure (code : ℕ)
deriving DecidableEq, Repr

/-- The monitor task of src/bin/6_agent_launcher.rs `spawn_agent`: it waits
for the process to terminate, DISCARDS the exit status
(`let _ = ch.wait().await;`), and sends `(id, config)` on the event channel. -/
def monitorEvent (id : ℕ) (cfg : AgentConfig) (status : ExitStatus) : LoopEvent :=
  match status with
  | _ => LoopEvent.exited id cfg

/-- Restart decision of the spec (§3 DATA MODEL, `Restart Policy`): respawn
independent of exit status for `Always`, only on failure for `OnFailure`,
never for `Never`.  Spec-side definition, to be compared with what the code
does (the code's branch is `config.restart != RestartPolicy::Never` and the
event does not even carry the exit status). -/
def specRespawnsAfter (p : RestartPolicy) (status : ExitStatus) : Bool :=
  match p with
  | RestartPolicy.Always => true
  | RestartPolicy.OnFailure => status ≠ ExitStatus.success
  | RestartPolicy.Never => false

/-- Handling of one lifecycle event inside the control loop of `main`:

    Some((id, config)) = rx.recv() => {
        agents.retain(|a| a.id != id);
        if config.restart != RestartPolicy::Never {
            let new_agent = spawn_agent(config, &bin_path, tx.clone()).await?;
            agents.push(new_agent);
        }
        ...
    }

Returns the new managed set and the next spawn-call counter; the `?` on the
respawn is `Except.error`. -/
def handleExitEvent (env : ℕ → SpawnOutcome) (agents : List ManagedAgent)
    (n : ℕ) (id : ℕ) (cfg : AgentConfig) :
    Except String (List ManagedAgent × ℕ) :=
  let remaining := agents.filter (fun a => a.id ≠ id)
  if cfg.restart ≠ RestartPolicy.Never then
    match env n with
    | SpawnOutcome.ok pid =>
      Except.ok (remaining ++ [{ config := cfg, id := pid }], n + 1)
    | SpawnOutcome.fail => Except.error (spawnFailMsg cfg)
  else
    Except.ok (remaining, n)

/-- The control loop of `main`: multiplex the shutdown signal and the
lifecycle channel until a `break` (shutdown signal, or the managed set
becoming empty after an exit event) or a propagated respawn error.
`Except.ok (some agents)` is a `break` with that managed set;
`Except.ok none` means the trace ran out with the loop still waiting. -/
def runLoop (env : ℕ → SpawnOutcome) :
    List ManagedAgent → ℕ → List LoopEvent →
    Except String (Option (List ManagedAgent) × ℕ)
  | _, n, [] => Except.ok (none, n)
  | agents, n, LoopEvent.ctrlC :: _ => Except.ok (some agents, n)
  | agents, n, LoopEvent.exited id cfg :: rest =>
    match handleExitEvent env agents n id cfg with
    | Except.error e => Except.error e
    | Except.ok (agentsAfter, nAfter) =>
      if agentsAfter.isEmpty then Except.ok (some agentsAfter, nAfter)
      else runLoop env agentsAfter nAfter rest

/-- Startup phase of `main`:

    for agent_config in config.agents.into_iter().filter(|a| a.enabled) {
        let agent = spawn_agent(agent_config, &bin_path, tx.clone()).await?;
        agents.push(agent);
    }

Any spawn failure aborts `main` via `?`. -/
def startupAgents (env : ℕ → SpawnOutcome) :
    List AgentConfig → ℕ → Except String (List ManagedAgent × ℕ)
  | [], n => Except.ok ([], n)
  | cfg :: rest, n =>
    if cfg.enabled then
      match env n with
      | SpawnOutcome.ok pid =>
        match startupAgents env rest (n + 1) with
        | Except.error e => Except.error e
        | Except.ok (agents, m) =>
          Except.ok ({ config := cfg, id := pid } :: agents, m)
      | SpawnOutcome.fail => Except.error (spawnFailMsg cfg)
    else startupAgents env rest n

/-- Shutdown phase after the loop breaks: every agent still in the managed
set gets a forceful kill that is awaited
(`let mut ch = agent.child.lock().await; ch.kill().await`).  One kill
request (pid and agent name) is issued per remaining agent; a kill error is
only logged, which for an owned child can occur only when the process has
already exited. -/
def shutdownKillRequests (finalAgents : List ManagedAgent) : List (ℕ × String) :=
  finalAgents.map (fun a => (a.id, a.config.name))

/-- Whole `main` of src/bin/6_agent_launcher.rs after configuration loading
and `cargo build`: startup spawns, early exit when no agent is enabled, the
control loop, then the shutdown kills.  The result is the list of kill
requests issued before the successful exit (`Except.ok none` again meaning
the run is still blocked inside the loop). -/
def launcherMain (env : ℕ → SpawnOutcome) (cfgs : List AgentConfig)
    (events : List LoopEvent) : Except String (Option (List (ℕ × String))) :=
  match startupAgents env cfgs 0 with
  | Except.error e => Except.error e
  | Except.ok (agents, n) =>
    if agents.isEmpty then Except.ok (some [])
    else
      match runLoop env agents n events with
      | Except.error e => Except.error e
      | Except.ok (none, _) => Except.ok none
      | Except.ok (some finalAgents, _) =>
        Except.ok (some (shutdownKillRequests finalAgents))

/-! ## Claim theorems -/

/-- C1 (counterexample): a malformed request payload is NOT answered with an
Error envelope.  In the file explorer the `?` on `serde_json::from_slice`
aborts the whole handler loop with the parse error (zero replies published),
and in the LLM gateway's `mcp.request.completion` branch the malformed
request is logged and `continue`d, publishing nothing — in both cases the
accepted request gets zero replies, not exactly one. -/
theorem malformed_request_dropped_cex :
    explorerListStep none (Except.ok []) (some "_INBOX.reply.1") =
      Except.error "invalid type: JSON parse error in files.list.request payload"
    ∧ gatewayCompletionStep none
        (Except.ok { content := "hola", token_usage := none }) (some "_INBOX.reply.2") = [] := by
  exact ⟨rfl, rfl⟩

/-- C1 (amended): for every WELL-FORMED request carrying a reply subject, the
explorer's two handlers and the gateway's completion handler publish exactly
one envelope on that subject — Success, or Error when the downstream
operation (directory scan, file read, LLM call) fails.  A malformed payload,
however, is not answered: the gateway logs and drops it, and the explorer's
handler loop aborts with the parse error. -/
theorem exactly_one_reply_wellformed (req : FileListRequest)
    (creq : ProcessFileRequest) (mreq : McpRequest)
    (scanR : Except String (List FileDiscovered))
    (readR : Except String String) (handleR : Except String McpResponse)
    (r e : String) :
    (∃ resp, explorerListStep (some req) scanR (some r) = Except.ok [⟨r, resp⟩])
    ∧ (∃ resp, explorerContentStep (some creq) readR (some r) = Except.ok [⟨r, resp⟩])
    ∧ (∃ resp, gatewayCompletionStep (some mreq) handleR (some r) = [⟨r, resp⟩])
    ∧ explorerListStep (some req) (Except.error e) (some r) =
        Except.ok [⟨r, AgentResponse.Error ("Error del explorador al escanear: " ++ e)⟩]
    ∧ gatewayCompletionStep (some mreq) (Except.error e) (some r) =
        [⟨r, AgentResponse.Error e⟩]
    ∧ gatewayCompletionStep none handleR (some r) = []
    ∧ (∃ msg, explorerListStep none scanR (some r) = Except.error msg) := by
  refine ⟨?_, ?_, ?_, rfl, rfl, rfl, ?_⟩
  · cases scanR with
    | ok files => exact ⟨AgentResponse.Success files, rfl⟩
    | error e => exact ⟨AgentResponse.Error ("Error del explorador al escanear: " ++ e), rfl⟩
  · cases readR with
    | ok content => exact ⟨AgentResponse.Success content, rfl⟩
    | error e =>
      exact ⟨AgentResponse.Error ("No se pudo leer '" ++ creq.path ++ "': " ++ e), rfl⟩
  · cases handleR with
    | ok m => exact ⟨AgentResponse.Success m, rfl⟩
    | error e => exact ⟨AgentResponse.Error e, rfl⟩
  · exact ⟨"invalid type: JSON parse error in files.list.request payload", rfl⟩

/-- C5 (counterexample): when the gateway replies `Error("boom")`, the
summarizer's own reply envelope is
`Error("El LLM Gateway devolvió un error: boom")` — the Error variant is
kept, but the message string is wrapped with a fixed description, not
propagated verbatim. -/
theorem error_reply_not_verbatim_cex :
    summarizerEnvelope
        (summarizerAwaitReply (ReplyOutcome.delivered (some (AgentResponse.Error "boom"))))
      = AgentResponse.Error "El LLM Gateway devolvió un error: boom"
    ∧ summarizerEnvelope
        (summarizerAwaitReply (ReplyOutcome.delivered (some (AgentResponse.Error "boom"))))
      ≠ AgentResponse.Error "boom" := by
  exact ⟨rfl, by decide⟩

/-- C5 (amended): when the responder replies with the Error(message) variant,
the summarizer propagates the Error VARIANT to its own caller, but the
message text is wrapped: `process_file` rewraps it as
`"El LLM Gateway devolvió un error: " ++ message` (bail!), and `main` puts
that wrapped text in the outgoing Error envelope; the original message is
preserved only as a suffix.  A Success reply's content is propagated
verbatim. -/
theorem error_reply_wrapped (m : String) (resp : McpResponse) :
    summarizerEnvelope
        (summarizerAwaitReply (ReplyOutcome.delivered (some (AgentResponse.Error m))))
      = AgentResponse.Error ("El LLM Gateway devolvió un error: " ++ m)
    ∧ summarizerEnvelope
        (summarizerAwaitReply (ReplyOutcome.delivered (some (AgentResponse.Success resp))))
      = AgentResponse.Success resp.content := by
  exact ⟨rfl, rfl⟩

/-- C6: the summarizer's RPC wait fails with the timeout condition when the
120 s deadline expires with no reply, and with a different, channel-closed
condition when the reply subscription stream ends before any message; the
two error results are distinct, so the caller can tell the outcomes apart
(and a delivered well-formed reply produces neither). -/
theorem rpc_timeout_distinct_from_channel_closed :
    summarizerAwaitReply ReplyOutcome.deadlineExpired =
      Except.error "Timeout esperando respuesta del LLM Gateway (120s)."
    ∧ summarizerAwaitReply ReplyOutcome.streamClosed =
      Except.error "El LLM Gateway cerró la respuesta sin emitir mensaje"
    ∧ summarizerAwaitReply ReplyOutcome.deadlineExpired ≠
      summarizerAwaitReply ReplyOutcome.streamClosed := by
  refine ⟨rfl, rfl, fun h => ?_⟩
  have h2 : ("Timeout esperando respuesta del LLM Gateway (120s)." : String) =
      "El LLM Gateway cerró la respuesta sin emitir mensaje" := Except.error.inj h
  exact absurd h2 (by decide)

/-- C8: every control topic the interactive GUI client publishes its gateway
requests on (`mcp.ping`, `mcp.provider.list`, `mcp.provider.inspect`) is
absent from the set of topics the LLM gateway subscribes to, so none of
these requests is ever received (hence never answered) by the gateway. -/
theorem gui_topics_unanswered (t : String) (h : t ∈ guiControlTopics) :
    t ∉ gatewaySubscribedTopics := by
  fin_cases h <;> decide

/-- Witness for C8 at the concrete topic `mcp.ping`. -/
theorem gui_topics_unanswered_witness :
    "mcp.ping" ∈ guiControlTopics ∧ "mcp.ping" ∉ gatewaySubscribedTopics :=
  ⟨by decide, gui_topics_unanswered "mcp.ping" (by decide)⟩

/-- C9: processing a message on `llm.config.set` overwrites exactly the
fields present in the message (`cfg.field.or(state.field)`); every absent
(`None`) field keeps its previous value, and a message that fails to
deserialize leaves the whole configuration state unchanged. -/
theorem config_update_frame (s : LlmConfigState) (cfg : LlmConfigSet) :
    gatewayConfigStep s none = s
    ∧ (∀ v, cfg.provider = some v → (gatewayConfigStep s (some cfg)).provider = some v)
    ∧ (cfg.provider = none → (gatewayConfigStep s (some cfg)).provider = s.provider)
    ∧ (∀ v, cfg.model = some v → (gatewayConfigStep s (some cfg)).model = some v)
    ∧ (cfg.model = none → (gatewayConfigStep s (some cfg)).model = s.model)
    ∧ (∀ v, cfg.base_url = some v → (gatewayConfigStep s (some cfg)).base_url = some v)
    ∧ (cfg.base_url = none → (gatewayConfigStep s (some cfg)).base_url = s.base_url)
    ∧ (∀ v, cfg.api_key = some v → (gatewayConfigStep s (some cfg)).api_key = some v)
    ∧ (cfg.api_key = none → (gatewayConfigStep s (some cfg)).api_key = s.api_key)
    ∧ (∀ v, cfg.temperature = some v → (gatewayConfigStep s (some cfg)).temperature = some v)
    ∧ (cfg.temperature = none → (gatewayConfigStep s (some cfg)).temperature = s.temperature) := by
  refine ⟨rfl, ?_, ?_, ?_, ?_, ?_, ?_, ?_, ?_, ?_, ?_⟩ <;>
    first
      | (intro v h; simp [gatewayConfigStep, h])
      | (intro h; simp [gatewayConfigStep, h])

/-- Witness for C9: a concrete update carrying only a provider overwrites the
provider, keeps the model, and a malformed message changes nothing. -/
theorem config_update_frame_witness :
    (gatewayConfigStep
        { provider := some "openai", model := some "gpt-4o-mini", base_url := none,
          api_key := none, temperature := none }
        (some { provider := some "ollama", model := none, base_url := none,
                api_key := none, temperature := none })).provider = some "ollama"
    ∧ (gatewayConfigStep
        { provider := some "openai", model := some "gpt-4o-mini", base_url := none,
          api_key := none, temperature := none }
        (some { provider := some "ollama", model := none, base_url := none,
                api_key := none, temperature := none })).model = some "gpt-4o-mini"
    ∧ gatewayConfigStep
        { provider := some "openai", model := some "gpt-4o-mini", base_url := none,
          api_key := none, temperature := none } none =
      { provider := some "openai", model := some "gpt-4o-mini", base_url := none,
        api_key := none, temperature := none } := by
  obtain ⟨h1, h2, -, -, h5, -⟩ :=
    config_update_frame
      { provider := some "openai", model := some "gpt-4o-mini", base_url := none,
        api_key := none, temperature := none }
      { provider := some "ollama", model := none, base_url := none,
        api_key := none, temperature := none }
  exact ⟨h2 "ollama" rfl, h5 rfl, h1⟩

/-- Helper: when no configured agent is enabled, the startup loop spawns
nothing and succeeds with the empty managed set. -/
theorem startupAgents_all_disabled (env : ℕ → SpawnOutcome) :
    ∀ (cfgs : List AgentConfig) (n : ℕ), (∀ c ∈ cfgs, c.enabled = false) →
      startupAgents env cfgs n = Except.ok ([], n) := by
  intro cfgs
  induction cfgs with
  | nil => intro n _; rfl
  | cons c rest ih =>
    intro n h
    have hc : c.enabled = false := h c (List.mem_cons_self c rest)
    have hrest : ∀ x ∈ rest, x.enabled = false := fun x hx => h x (List.mem_cons_of_mem c hx)
    simp [startupAgents, hc, ih n hrest]

/-- C2 (counterexample): with agents `a` (policy Always) and `b` (policy
Never) both spawned at startup (pids 10 and 11) and an environment whose
third spawn call fails, the exit of `a` makes the whole launcher return the
spawn error: the restart-spawn failure is propagated by `?` and terminates
the supervisor, instead of dropping `a` and continuing to manage `b`. -/
theorem restart_spawn_failure_fatal_cex :
    launcherMain (fun n => if n < 2 then SpawnOutcome.ok (10 + n) else SpawnOutcome.fail)
      [{ name := "a", bin := "agent_a", enabled := true, restart := RestartPolicy.Always },
       { name := "b", bin := "agent_b", enabled := true, restart := RestartPolicy.Never }]
      [LoopEvent.exited 10
        { name := "a", bin := "agent_a", enabled := true, restart := RestartPolicy.Always }] =
    Except.error "Fallo al iniciar el binario 'agent_a'" := by
  rfl

/-- C2 (amended): a failure to spawn an agent process is fatal to the whole
supervisor in BOTH situations — at initial startup, and equally during a
restart after an exit event, where `spawn_agent(...).await?` propagates the
error out of the control loop; the agent is not merely dropped and the loop
does not continue for the remaining agents. -/
theorem spawn_failure_always_fatal (env : ℕ → SpawnOutcome)
    (cfgs : List AgentConfig) (events rest : List LoopEvent) (e : String)
    (agents : List ManagedAgent) (n id : ℕ) (cfg : AgentConfig) :
    (startupAgents env cfgs 0 = Except.error e →
      launcherMain env cfgs events = Except.error e)
    ∧ (cfg.restart ≠ RestartPolicy.Never → env n = SpawnOutcome.fail →
      runLoop env agents n (LoopEvent.exited id cfg :: rest) =
        Except.error (spawnFailMsg cfg))
    ∧ (startupAgents env cfgs 0 = Except.ok (agents, n) → agents ≠ [] →
      runLoop env agents n events = Except.error e →
      launcherMain env cfgs events = Except.error e) := by
  refine ⟨?_, ?_, ?_⟩
  · intro h; simp [launcherMain, h]
  · intro h1 h2; simp [runLoop, handleExitEvent, h1, h2]
  · intro h1 h2 h3
    simp [launcherMain, h1, List.isEmpty_iff, h2, h3]

/-- Witness for C2 (amended) at a concrete environment whose every spawn
fails and a single enabled agent: startup failure is fatal, and a restart
spawn failure inside the loop yields the spawn error. -/
theorem spawn_failure_always_fatal_witness :
    launcherMain (fun _ => SpawnOutcome.fail)
      [{ name := "c", bin := "agent_c", enabled := true, restart := RestartPolicy.Never }]
      [] = Except.error "Fallo al iniciar el binario 'agent_c'"
    ∧ runLoop (fun _ => SpawnOutcome.fail)
        [{ config := { name := "d", bin := "agent_d", enabled := true,
                       restart := RestartPolicy.Always }, id := 3 }] 0
        [LoopEvent.exited 3
          { name := "d", bin := "agent_d", enabled := true, restart := RestartPolicy.Always }] =
      Except.error (spawnFailMsg
        { name := "d", bin := "agent_d", enabled := true, restart := RestartPolicy.Always }) := by
  obtain ⟨h1, -, -⟩ :=
    spawn_failure_always_fatal (fun _ => SpawnOutcome.fail)
      [{ name := "c", bin := "agent_c", enabled := true, restart := RestartPolicy.Never }]
      [] [] "Fallo al iniciar el binario 'agent_c'" [] 0 0
      { name := "c", bin := "agent_c", enabled := true, restart := RestartPolicy.Never }
  obtain ⟨-, h2, -⟩ :=
    spawn_failure_always_fatal (fun _ => SpawnOutcome.fail) [] [] [] ""
      [{ config := { name := "d", bin := "agent_d", enabled := true,
                     restart := RestartPolicy.Always }, id := 3 }] 0 3
      { name := "d", bin := "agent_d", enabled := true, restart := RestartPolicy.Always }
  exact ⟨h1 rfl, h2 (by decide) rfl⟩

/-- C3 (counterexample): an agent with policy `OnFailure` whose process
exits SUCCESSFULLY (a requested, zero-status exit) is still respawned.  The
monitor discards the exit status (`let _ = ch.wait().await;`), so the loop's
check `config.restart != RestartPolicy::Never` respawns it, while the
claimed policy (`specRespawnsAfter`) says a successful exit must not be
respawned under `OnFailure`. -/
theorem onfailure_respawn_ignores_status_cex :
    monitorEvent 5
      { name := "w", bin := "agent_w", enabled := true, restart := RestartPolicy.OnFailure }
      ExitStatus.success =
      LoopEvent.exited 5
        { name := "w", bin := "agent_w", enabled := true, restart := RestartPolicy.OnFailure }
    ∧ specRespawnsAfter RestartPolicy.OnFailure ExitStatus.success = false
    ∧ handleExitEvent (fun _ => SpawnOutcome.ok 7)
        [{ config := { name := "w", bin := "agent_w", enabled := true,
                       restart := RestartPolicy.OnFailure }, id := 5 }] 0 5
        { name := "w", bin := "agent_w", enabled := true, restart := RestartPolicy.OnFailure } =
      Except.ok
        ([{ config := { name := "w", bin := "agent_w", enabled := true,
                        restart := RestartPolicy.OnFailure }, id := 7 }], 1) := by
  exact ⟨rfl, rfl, rfl⟩

/-- C3 (amended): the exit status never reaches the restart decision — the
monitor task emits the same `(id, config)` event whatever the status was —
and the control loop respawns after an exit exactly when the policy is not
`Never`: `OnFailure` therefore behaves identically to `Always` (respawn
after every exit), and `Never` never respawns. -/
theorem restart_decision_ignores_exit_status (env : ℕ → SpawnOutcome)
    (agents : List ManagedAgent) (n id pid : ℕ) (cfg : AgentConfig)
    (st st2 : ExitStatus) :
    monitorEvent id cfg st = monitorEvent id cfg st2
    ∧ (cfg.restart ≠ RestartPolicy.Never → env n = SpawnOutcome.ok pid →
        handleExitEvent env agents n id cfg =
          Except.ok (agents.filter (fun a => a.id ≠ id) ++ [{ config := cfg, id := pid }],
            n + 1))
    ∧ (cfg.restart = RestartPolicy.Never →
        handleExitEvent env agents n id cfg =
          Except.ok (agents.filter (fun a => a.id ≠ id), n)) := by
  refine ⟨rfl, ?_, ?_⟩
  · intro h1 h2; simp [handleExitEvent, h1, h2]
  · intro h1; simp [handleExitEvent, h1]

/-- Witness for C3 (amended): a concrete `OnFailure` agent is respawned after
an exit, and a concrete `Never` agent is only removed. -/
theorem restart_decision_ignores_exit_status_witness :
    handleExitEvent (fun _ => SpawnOutcome.ok 9)
      [{ config := { name := "x", bin := "agent_x", enabled := true,
                     restart := RestartPolicy.OnFailure }, id := 4 }] 2 4
      { name := "x", bin := "agent_x", enabled := true, restart := RestartPolicy.OnFailure } =
      Except.ok
        ([{ config := { name := "x", bin := "agent_x", enabled := true,
                        restart := RestartPolicy.OnFailure }, id := 9 }], 3)
    ∧ handleExitEvent (fun _ => SpawnOutcome.ok 9)
        [{ config := { name := "y", bin := "agent_y", enabled := true,
                       restart := RestartPolicy.Never }, id := 4 }] 2 4
        { name := "y", bin := "agent_y", enabled := true, restart := RestartPolicy.Never } =
      Except.ok ([], 2) := by
  obtain ⟨-, h2, -⟩ :=
    restart_decision_ignores_exit_status (fun _ => SpawnOutcome.ok 9)
      [{ config := { name := "x", bin := "agent_x", enabled := true,
                     restart := RestartPolicy.OnFailure }, id := 4 }] 2 4 9
      { name := "x", bin := "agent_x", enabled := true, restart := RestartPolicy.OnFailure }
      ExitStatus.success ExitStatus.success
  obtain ⟨-, -, h3⟩ :=
    restart_decision_ignores_exit_status (fun _ => SpawnOutcome.ok 9)
      [{ config := { name := "y", bin := "agent_y", enabled := true,
                     restart := RestartPolicy.Never }, id := 4 }] 2 4 9
      { name := "y", bin := "agent_y", enabled := true, restart := RestartPolicy.Never }
      ExitStatus.success ExitStatus.success
  refine ⟨?_, ?_⟩
  · rw [h2 (by decide) rfl]; rfl
  · rw [h3 rfl]; rfl

/-- C4: on the operator shutdown signal the control loop terminates at once
with the current managed set (the `break`), and the shutdown phase then
issues one awaited forceful-kill request per agent still in that set: every
managed agent receives a kill request, and no agent of the set is left
without one, so no managed process survives the supervisor. -/
theorem clean_shutdown (env : ℕ → SpawnOutcome) (agents : List ManagedAgent)
    (n : ℕ) (rest : List LoopEvent) :
    runLoop env agents n (LoopEvent.ctrlC :: rest) = Except.ok (some agents, n)
    ∧ (∀ a ∈ agents, (a.id, a.config.name) ∈ shutdownKillRequests agents)
    ∧ agents.filter
        (fun a => !((shutdownKillRequests agents).any (fun k => k.1 == a.id))) = [] := by
  refine ⟨rfl, ?_, ?_⟩
  · intro a ha
    exact List.mem_map_of_mem (fun a => (a.id, a.config.name)) ha
  · rw [List.filter_eq_nil_iff]
    intro a ha
    simp only [Bool.not_eq_true', Bool.not_eq_false]
    rw [List.any_eq_true]
    exact ⟨(a.id, a.config.name),
      List.mem_map_of_mem (fun a => (a.id, a.config.name)) ha, by simp⟩

/-- Witness for C4 at a concrete two-agent managed set. -/
theorem clean_shutdown_witness :
    runLoop (fun _ => SpawnOutcome.ok 0)
      [{ config := { name := "a", bin := "agent_a", enabled := true,
                     restart := RestartPolicy.Always }, id := 10 },
       { config := { name := "b", bin := "agent_b", enabled := true,
                     restart := RestartPolicy.Never }, id := 11 }] 2
      [LoopEvent.ctrlC] =
      Except.ok (some
        [{ config := { name := "a", bin := "agent_a", enabled := true,
                       restart := RestartPolicy.Always }, id := 10 },
         { config := { name := "b", bin := "agent_b", enabled := true,
                       restart := RestartPolicy.Never }, id := 11 }], 2)
    ∧ (10, "a") ∈ shutdownKillRequests
        [{ config := { name := "a", bin := "agent_a", enabled := true,
                       restart := RestartPolicy.Always }, id := 10 },
         { config := { name := "b", bin := "agent_b", enabled := true,
                       restart := RestartPolicy.Never }, id := 11 }] := by
  obtain ⟨h1, h2, -⟩ :=
    clean_shutdown (fun _ => SpawnOutcome.ok 0)
      [{ config := { name := "a", bin := "agent_a", enabled := true,
                     restart := RestartPolicy.Always }, id := 10 },
       { config := { name := "b", bin := "agent_b", enabled := true,
                     restart := RestartPolicy.Never }, id := 11 }] 2 []
  refine ⟨h1, ?_⟩
  exact h2
    { config := { name := "a", bin := "agent_a", enabled := true,
                  restart := RestartPolicy.Always }, id := 10 }
    (by simp)

/-- C7: per processed exit event — a `Never` agent is removed from the
managed set (its id is gone) and nothing is spawned (the spawn counter is
unchanged); an `Always` agent is respawned exactly once (one new entry, one
spawn call), for arbitrary spawn counter, hence indefinitely across repeated
exits; and whenever the exiting id identifies only entries of the exiting
agent (live pids are unique), an initially duplicate-free managed set stays
duplicate-free: no agent name appears twice after the event. -/
theorem restart_policy_set_invariants (env : ℕ → SpawnOutcome)
    (agents : List ManagedAgent) (n id pid : ℕ) (cfg : AgentConfig) :
    (cfg.restart = RestartPolicy.Never →
      handleExitEvent env agents n id cfg =
        Except.ok (agents.filter (fun a => a.id ≠ id), n)
      ∧ ∀ a ∈ agents.filter (fun a => a.id ≠ id), a.id ≠ id)
    ∧ (cfg.restart = RestartPolicy.Always → env n = SpawnOutcome.ok pid →
      handleExitEvent env agents n id cfg =
        Except.ok (agents.filter (fun a => a.id ≠ id) ++ [{ config := cfg, id := pid }],
          n + 1))
    ∧ ((agents.map (fun a => a.config.name)).Nodup →
      (∀ a ∈ agents, a.config.name = cfg.name → a.id = id) →
      ∀ res m, handleExitEvent env agents n id cfg = Except.ok (res, m) →
        (res.map (fun a => a.config.name)).Nodup) := by
  have hfilnd : (agents.map (fun a => a.config.name)).Nodup →
      ((agents.filter (fun a => a.id ≠ id)).map (fun a => a.config.name)).Nodup :=
    fun hnd => hnd.sublist (List.Sublist.map _ (List.filter_sublist agents))
  refine ⟨?_, ?_, ?_⟩
  · intro h
    refine ⟨by simp [handleExitEvent, h], ?_⟩
    intro a ha
    simpa using (List.mem_filter.mp ha).2
  · intro h1 h2
    simp [handleExitEvent, h1, h2]
  · intro hnd huniq res m hres
    by_cases hc : cfg.restart = RestartPolicy.Never
    · simp [handleExitEvent, hc] at hres
      rw [← hres.1]
      simpa using hfilnd hnd
    · cases henv : env n with
      | ok p2 =>
        simp [handleExitEvent, hc, henv] at hres
        rw [← hres.1, List.map_append, List.nodup_append]
        refine ⟨by simpa using hfilnd hnd, by simp, ?_⟩
        intro x hx hx2
        simp only [List.map_cons, List.map_nil, List.mem_singleton] at hx2
        subst hx2
        obtain ⟨a, haf, hname⟩ := List.mem_map.mp hx
        have hin : a ∈ agents := List.mem_of_mem_filter haf
        have hid : a.id = id := huniq a hin hname
        have hne : a.id ≠ id := by simpa using (List.mem_filter.mp haf).2
        exact hne hid
      | fail =>
        simp [handleExitEvent, hc, henv] at hres

/-- Witness for C7: one `Always` agent killed and respawned keeps a
one-entry, duplicate-free managed set, and a `Never` agent is just removed. -/
theorem restart_policy_set_invariants_witness :
    handleExitEvent (fun _ => SpawnOutcome.ok 7)
      [{ config := { name := "a", bin := "agent_a", enabled := true,
                     restart := RestartPolicy.Always }, id := 5 }] 0 5
      { name := "a", bin := "agent_a", enabled := true, restart := RestartPolicy.Always } =
      Except.ok
        ([{ config := { name := "a", bin := "agent_a", enabled := true,
                        restart := RestartPolicy.Always }, id := 7 }], 1)
    ∧ (([{ config := { name := "a", bin := "agent_a", enabled := true,
                       restart := RestartPolicy.Always }, id := 7 }] :
          List ManagedAgent).map (fun a => a.config.name)).Nodup
    ∧ handleExitEvent (fun _ => SpawnOutcome.ok 7)
        [{ config := { name := "b", bin := "agent_b", enabled := true,
                       restart := RestartPolicy.Never }, id := 5 }] 0 5
        { name := "b", bin := "agent_b", enabled := true, restart := RestartPolicy.Never } =
      Except.ok ([], 0) := by
  obtain ⟨-, h2, h3⟩ :=
    restart_policy_set_invariants (fun _ => SpawnOutcome.ok 7)
      [{ config := { name := "a", bin := "agent_a", enabled := true,
                     restart := RestartPolicy.Always }, id := 5 }] 0 5 7
      { name := "a", bin := "agent_a", enabled := true, restart := RestartPolicy.Always }
  obtain ⟨h4, -, -⟩ :=
    restart_policy_set_invariants (fun _ => SpawnOutcome.ok 7)
      [{ config := { name := "b", bin := "agent_b", enabled := true,
                     restart := RestartPolicy.Never }, id := 5 }] 0 5 7
      { name := "b", bin := "agent_b", enabled := true, restart := RestartPolicy.Never }
  have hnew := h2 rfl rfl
  refine ⟨by rw [hnew]; rfl, ?_, by rw [(h4 rfl).1]; rfl⟩
  exact h3 (by simp) (by intro a ha hn; simp at ha; rw [ha]) _ _ hnew

/-- C10: the supervisor terminates on its own, without an operator signal,
whenever the managed set becomes empty — at startup when no configured agent
is enabled (the launcher returns success before entering the loop, issuing
no kill), and inside the loop when an exit event leaves the set empty after
a `Never` agent's removal (the loop breaks with the empty set); and a loop
that breaks on its own completes the launcher run successfully. -/
theorem empty_managed_set_self_terminates (env : ℕ → SpawnOutcome)
    (cfgs : List AgentConfig) (events rest : List LoopEvent)
    (agents finalAgents : List ManagedAgent) (n m id : ℕ) (cfg : AgentConfig) :
    ((∀ c ∈ cfgs, c.enabled = false) →
      launcherMain env cfgs events = Except.ok (some []))
    ∧ (cfg.restart = RestartPolicy.Never → agents.filter (fun a => a.id ≠ id) = [] →
      runLoop env agents n (LoopEvent.exited id cfg :: rest) = Except.ok (some [], n))
    ∧ (startupAgents env cfgs 0 = Except.ok (agents, n) → agents ≠ [] →
      runLoop env agents n events = Except.ok (some finalAgents, m) →
      launcherMain env cfgs events = Except.ok (some (shutdownKillRequests finalAgents))) := by
  refine ⟨?_, ?_, ?_⟩
  · intro h
    simp [launcherMain, startupAgents_all_disabled env cfgs 0 h]
  · intro h1 h2
    simp only [ne_eq, decide_not] at h2
    simp [runLoop, handleExitEvent, h1, h2]
  · intro h1 h2 h3
    simp [launcherMain, h1, List.isEmpty_iff, h2, h3]

/-- Witness for C10: a run whose only enabled agent has policy `Never` and
exits — the loop breaks on the emptied set and the launcher exits
successfully with no kill issued; and a configuration with no enabled agent
exits successfully at once. -/
theorem empty_managed_set_self_terminates_witness :
    runLoop (fun _ => SpawnOutcome.ok 9)
      [{ config := { name := "c", bin := "agent_c", enabled := true,
                     restart := RestartPolicy.Never }, id := 5 }] 1
      [LoopEvent.exited 5
        { name := "c", bin := "agent_c", enabled := true, restart := RestartPolicy.Never }] =
      Except.ok (some [], 1)
    ∧ launcherMain (fun _ => SpawnOutcome.ok 9)
        [{ name := "d", bin := "agent_d", enabled := false, restart := RestartPolicy.Always }]
        [] = Except.ok (some []) := by
  obtain ⟨-, h2, -⟩ :=
    empty_managed_set_self_terminates (fun _ => SpawnOutcome.ok 9)
      [{ name := "d", bin := "agent_d", enabled := false, restart := RestartPolicy.Always }]
      [] []
      [{ config := { name := "c", bin := "agent_c", enabled := true,
                     restart := RestartPolicy.Never }, id := 5 }] [] 1 0 5
      { name := "c", bin := "agent_c", enabled := true, restart := RestartPolicy.Never }
  obtain ⟨h1, -, -⟩ :=
    empty_managed_set_self_terminates (fun _ => SpawnOutcome.ok 9)
      [{ name := "d", bin := "agent_d", enabled := false, restart := RestartPolicy.Always }]
      [] [] [] [] 0 0 0
      { name := "c", bin := "agent_c", enabled := true, restart := RestartPolicy.Never }
  exact ⟨h2 rfl rfl, h1 (by simp)⟩

end MultiAgent
